import Mathlib

/-!
Verification of the fb-app credential lifecycle controller.

The handlers `Register`, `ConfirmRegistration`, `Login`, `ResetPassword` and
`RecoverPassword` (Go package `auth`) are embedded as pure functions over an
explicit credential store (a list of credential rows), an explicit clock value
(`now`, the epoch second the handler reads), and explicit outcomes for the
non-deterministic inputs a handler consumes (JSON decode results, random salts,
JWT issuance).  Each handler returns the list of HTTP responses it writes (in
write order), the resulting store, the trace of repository calls it makes, and
the e-mail events it schedules.

The repository layer (`FindUserCredentials`, `ConfirmCredentialsToken`,
`UpdatePassword`, `Repo.ResetPassword`) and the hashing utilities are not part
of the provided sources; they are modelled from the spec and are marked as
such in their doc comments.
-/

/-- Token type tags stored on a credential (`model.TokenConfirmation`,
`model.TokenResetPassword`; `noTok` is the Go zero value). -/
inductive TokenType
  | noTok
  | confirmation
  | resetPassword
deriving DecidableEq, Repr

/-- One credential row, after `model.UserCredentials`:
`user_id`, `email`, `password_hash` (field `password`), `salt`,
`token`, `token_type`, `token_expire` (epoch seconds), `active`. -/
structure UserCredentials where
  userId : Nat
  email : String
  password : String
  salt : String
  token : String
  tokenType : TokenType
  tokenExpire : Int
  active : Bool
deriving DecidableEq, Repr

/-- The error-code constant a handler passes to `httplib.ErrorResponseJSON`.
Constructors name the constant used at the call site (package `internalErr`,
whose numeric values live outside the provided sources); `lit1`, `lit11`,
`lit111` and `lit404` are the integer literals appearing directly in the
handlers. -/
inductive ErrCode
  | authDecode
  | authForm
  | tx
  | txCommit
  | queryParamsToken
  | userCredentialsToken
  | userCredentials
  | tokenExpired
  | authFormEmailEmpty
  | authFormPasswordInvalid
  | userCredentialsNotExists
  | userCredentialsIsNotActive
  | tokenCode
  | auth
  | authFormPasswordsMismatch
  | profile
  | userCredentialsReset
  | lit1
  | lit11
  | lit111
  | lit404
deriving DecidableEq, Repr

/-- An HTTP response written by a handler: an error response
(status, error-code constant, message string) or a success response
(`httplib.SuccessfulResult`, optionally carrying a user id, or the Login
success map carrying the session token). -/
inductive Response
  | err (status : Nat) (code : ErrCode) (msg : String)
  | ok (id : Option Nat)
  | okLogin (tokenId accessToken : String) (expiresAt : Int)
deriving DecidableEq, Repr

/-- A repository call observed during a handler run.  The `Bool` on
`confirmCredentialsToken` and `updatePassword` records whether the call
received a live transaction handle (`true`) or `nil` (`false`). -/
inductive RepoEvent
  | beginTxSerializable
  | findCredsByToken (token : String)
  | findCredsByEmail (email : String)
  | findUser (userId : Nat)
  | confirmCredentialsToken (liveTx : Bool) (userId : Nat)
  | updatePassword (liveTx : Bool) (userId : Nat)
  | resetPasswordCall (userId : Nat)
  | txCreateUser
  | txNewAuthCredentials
  | commit
deriving DecidableEq, Repr

/-- Subject tag of a scheduled e-mail (`model.EmailRegistration`,
`model.EmailResetPassword`). -/
inductive EmailSubject
  | registration
  | resetPasswordMail
deriving DecidableEq, Repr

/-- Payload handed to `HandleEmailEvent` (`model.EmailData`). -/
structure EmailData where
  subject : EmailSubject
  recipientEmail : String
  recipientName : String
  token : String
deriving DecidableEq, Repr

/-- Result of one handler run: responses in write order, the store after the
run, the repository-call trace, and the e-mail events scheduled with `go`. -/
structure HandlerOutput where
  responses : List Response
  db : List UserCredentials
  events : List RepoEvent
  emails : List EmailData
deriving DecidableEq, Repr

/-- `strings.ToLower` on the request email, embedded structurally over the
character list (Lean core `String.toLower` is defined by well-founded
recursion and does not kernel-reduce; this version is definitionally equal on
every string). -/
def goToLower (s : String) : String :=
  String.mk (s.data.map Char.toLower)

/-- Modelled from the spec: the Hashing Primitive `hash(secret, salt)` is a
deterministic salted one-way digest (`utils.GenerateSaltedHash`, outside the
provided sources).  Modelled as an injective string encoding; the claims
depend only on determinism and on distinct inputs giving distinct digests. -/
def GenerateSaltedHash (password salt : String) : String :=
  "h:" ++ password ++ ":" ++ salt

/-- Modelled from the spec: token-material derivation
(`utils.GenerateHashFromString`, outside the provided sources): a
deterministic digest of its input string. -/
def GenerateHashFromString (s : String) : String :=
  "g:" ++ s

/-- Modelled from the spec: Credential Store `findByToken(token)`
(`Repo.FindUserCredentials` with only `Token` set, outside the provided
sources): returns the matching row or `NotFound` (`pgx.ErrNoRows`). -/
def Repo.FindUserCredentialsByToken (db : List UserCredentials) (token : String) :
    Option UserCredentials :=
  db.find? (fun c => c.token == token)

/-- Modelled from the spec: Credential Store `findByEmail(email)`
(`Repo.FindUserCredentials` with only `Email` set, outside the provided
sources): returns the matching row or `NotFound` (`pgx.ErrNoRows`). -/
def Repo.FindUserCredentialsByEmail (db : List UserCredentials) (email : String) :
    Option UserCredentials :=
  db.find? (fun c => c.email == email)

/-- Modelled from the spec: `consumeToken(tx, user_id, token, token_type)`
(`Repo.ConfirmCredentialsToken`, outside the provided sources) clears the
token fields of the credential owned by `user_id`; during registration
confirmation (token type `confirmation`) it also sets `active = true`
(spec: ConfirmRegistration "consumes the token and sets `active=true`"). -/
def Repo.ConfirmCredentialsToken (uid : Nat) (tt : TokenType)
    (db : List UserCredentials) : List UserCredentials :=
  db.map fun c =>
    if c.userId = uid then
      { c with token := "", tokenType := TokenType.noTok, tokenExpire := 0,
               active := if tt = TokenType.confirmation then true else c.active }
    else c

/-- Modelled from the spec: the Credential Store update used by password
recovery (`Repo.UpdatePassword`, outside the provided sources): writes the
new salted password hash and salt onto the credential owned by `user_id`. -/
def Repo.UpdatePassword (cred : UserCredentials) (db : List UserCredentials) :
    List UserCredentials :=
  db.map fun c =>
    if c.userId = cred.userId then
      { c with password := cred.password, salt := cred.salt }
    else c

/-- Modelled from the spec: the Credential Store update used by reset-token
issuance (`Repo.ResetPassword`, outside the provided sources): full-row
replace of the credential owned by the request's `user_id` — issuing a new
token overwrites the previous token fields (overwrite, not append). -/
def Repo.ResetPassword (cred : UserCredentials) (db : List UserCredentials) :
    List UserCredentials :=
  db.map fun c => if c.userId = cred.userId then cred else c

/-- `ConfirmRegistration` handler (auth handlers file, lines 77-117), embedded
over the clock value `now = time.Now().Unix()`, the credential store, and the
`token` query parameter.  Mirrors the source branch for branch: empty token
check, `FindUserCredentials` by token (`pgx.ErrNoRows` branch and success),
the `now >= creds.TokenExpire` expiry rejection, then
`ConfirmCredentialsToken` called with a `nil` transaction handle. -/
def ConfirmRegistration (now : Int) (db : List UserCredentials) (token : String) :
    HandlerOutput :=
  if token = "" then
    { responses := [Response.err 400 ErrCode.queryParamsToken
        "query parameter token should be specified"],
      db := db, events := [], emails := [] }
  else
    match Repo.FindUserCredentialsByToken db token with
    | none =>
      { responses := [Response.err 400 ErrCode.userCredentialsToken
          "no rows in result set"],
        db := db, events := [RepoEvent.findCredsByToken token], emails := [] }
    | some creds =>
      if now ≥ creds.tokenExpire then
        { responses := [Response.err 400 ErrCode.tokenExpired
            "token expired, try to reset password"],
          db := db, events := [RepoEvent.findCredsByToken token], emails := [] }
      else
        { responses := [Response.ok none],
          db := Repo.ConfirmCredentialsToken creds.userId creds.tokenType db,
          events := [RepoEvent.findCredsByToken token,
                     RepoEvent.confirmCredentialsToken false creds.userId],
          emails := [] }

/-- Decoded body of a Login request (`model.AuthenticateRequest`). -/
structure AuthenticateRequest where
  email : String
  password : String
  rememberMe : Bool
deriving DecidableEq, Repr

/-- A session token produced by `createJWTToken` (Session Issuer, outside the
provided sources).  `Login` is embedded over its outcome: `some tok` when
issuance succeeds, `none` when it fails. -/
structure JwtToken where
  tokenId : String
  accessToken : String
  expirationTime : Int
deriving DecidableEq, Repr

/-- `Login` handler (auth handlers file, lines 122-200), embedded over the
store, the JSON decode outcome (`none` = decode error, which returns
immediately in the source), and the JWT issuance outcome.  Mirrors the source
branch for branch: empty email, empty password, lower-casing of the email,
`FindUserCredentials` by email (`pgx.ErrNoRows` branch), the `active` check,
the salted-hash comparison with field `password`, and the JWT-failure branch
which logs and returns WITHOUT writing any response. -/
def Login (db : List UserCredentials) (decoded : Option AuthenticateRequest)
    (jwtResult : Option JwtToken) : HandlerOutput :=
  match decoded with
  | none =>
    { responses := [Response.err 400 ErrCode.authDecode "decode error"],
      db := db, events := [], emails := [] }
  | some req =>
    if req.email = "" then
      { responses := [Response.err 400 ErrCode.authFormEmailEmpty
          "Empty email or username"],
        db := db, events := [], emails := [] }
    else if req.password = "" then
      { responses := [Response.err 400 ErrCode.authFormPasswordInvalid
          "Empty password"],
        db := db, events := [], emails := [] }
    else
      let email := goToLower req.email
      match Repo.FindUserCredentialsByEmail db email with
      | none =>
        { responses := [Response.err 400 ErrCode.userCredentialsNotExists
            "User with specified login credentials not exists"],
          db := db, events := [RepoEvent.findCredsByEmail email], emails := [] }
      | some creds =>
        if !creds.active then
          { responses := [Response.err 403 ErrCode.userCredentialsIsNotActive
              "User is not activated"],
            db := db, events := [RepoEvent.findCredsByEmail email], emails := [] }
        else if GenerateSaltedHash req.password creds.salt ≠ creds.password then
          { responses := [Response.err 400 ErrCode.lit1 "Wrong password"],
            db := db, events := [RepoEvent.findCredsByEmail email], emails := [] }
        else
          match jwtResult with
          | none =>
            { responses := [],
              db := db, events := [RepoEvent.findCredsByEmail email], emails := [] }
          | some tok =>
            { responses := [Response.okLogin tok.tokenId tok.accessToken
                tok.expirationTime],
              db := db, events := [RepoEvent.findCredsByEmail email], emails := [] }

/-- Decoded body of a Register request (`model.RegisterRequest`). -/
structure RegisterRequest where
  email : String
  password : String
  name : String
  termsOk : Bool
deriving DecidableEq, Repr

/-- The Go zero value of `model.RegisterRequest`: what `req` holds when
`json.Decoder.Decode` fails before setting any field (e.g. an empty body). -/
def zeroRegisterRequest : RegisterRequest :=
  { email := "", password := "", name := "", termsOk := false }

/-- Modelled from the spec: `createUserCredentials` (outside the provided
sources) creates the User and the Credential inside the caller's transaction,
issuing a fresh confirmation token (token = hash of identity / time / salt,
`token_expire = now + 48h`, `active = false`), and returns the credential. -/
def createUserCredentials (now : Int) (timeStr passwordSalt : String)
    (tokenSalt : Int) (newUid : Nat) (req : RegisterRequest) : UserCredentials :=
  { userId := newUid,
    email := goToLower req.email,
    password := GenerateSaltedHash req.password passwordSalt,
    salt := passwordSalt,
    token := GenerateHashFromString
      (req.email ++ ":" ++ timeStr ++ ":" ++ toString tokenSalt),
    tokenType := TokenType.confirmation,
    tokenExpire := now + 60 * 60 * 48,
    active := false }

/-- `Register` handler (auth handlers file, lines 22-72), embedded over the
decode outcome.  `decodeErr = true` means `decoder.Decode(&req)` returned an
error and `req` holds whatever the partial decode left in it (the decode-error
branch in the source writes an error response but has NO `return`, so the
handler falls through to the terms check with that `req`).  `timeStr`,
`passwordSalt`, `tokenSalt` and `newUid` stand for the wall clock, the random
salts and the store-assigned user id consumed on the success path. -/
def Register (now : Int) (db : List UserCredentials) (decodeErr : Bool)
    (req : RegisterRequest) (timeStr passwordSalt : String) (tokenSalt : Int)
    (newUid : Nat) : HandlerOutput :=
  let decodeResp : List Response :=
    if decodeErr then [Response.err 400 ErrCode.authDecode "decode error"] else []
  if !req.termsOk then
    { responses := decodeResp ++ [Response.err 400 ErrCode.authForm
        "you must accept terms and conditions terms_ok set to true"],
      db := db, events := [], emails := [] }
  else
    let credentials := createUserCredentials now timeStr passwordSalt tokenSalt newUid req
    { responses := decodeResp ++ [Response.ok (some newUid)],
      db := db ++ [credentials],
      events := [RepoEvent.beginTxSerializable, RepoEvent.txCreateUser,
                 RepoEvent.txNewAuthCredentials, RepoEvent.commit],
      emails := [{ subject := EmailSubject.registration,
                   recipientEmail := req.email, recipientName := req.name,
                   token := credentials.token }] }

/-- Decoded body of a ResetPassword request (`model.ResetPasswordRequest`). -/
structure ResetPasswordRequest where
  email : String
deriving DecidableEq, Repr

/-- `ResetPassword` handler (reset/recover handlers file, lines 163-245),
embedded over the clock (`now` and its string rendering `timeStr`, since the
source formats `time.Now()` into the token material), the store, the decode
outcome, the random salt `rn.Int()`, and the user profile name returned by
`FindUser` (outside the provided sources, modelled as succeeding).  On the
success path the source sets `token_type = reset-password`,
`token = GenerateHashFromString(email + ":" + time + ":" + salt)`,
`token_expire = now + 60*60*48`, writes the row via `Repo.ResetPassword`,
commits, and schedules the reset e-mail. -/
def ResetPassword (now : Int) (timeStr : String) (db : List UserCredentials)
    (decoded : Option ResetPasswordRequest) (randSalt : Int) (userName : String) :
    HandlerOutput :=
  match decoded with
  | none =>
    { responses := [Response.err 400 ErrCode.authDecode "decode error"],
      db := db, events := [], emails := [] }
  | some req =>
    if req.email.length < 1 ∨ req.email = " " then
      { responses := [Response.err 400 ErrCode.authFormEmailEmpty "Empty email"],
        db := db, events := [], emails := [] }
    else
      let email := goToLower req.email
      match Repo.FindUserCredentialsByEmail db email with
      | none =>
        { responses := [Response.err 404 ErrCode.lit404 "no rows in result set"],
          db := db, events := [RepoEvent.findCredsByEmail email], emails := [] }
      | some credentials =>
        let token := GenerateHashFromString
          (email ++ ":" ++ timeStr ++ ":" ++ toString randSalt)
        let tokenExpire := now + 60 * 60 * 48
        let cred' := { credentials with
          tokenType := TokenType.resetPassword,
          token := token,
          tokenExpire := tokenExpire }
        { responses := [Response.ok none],
          db := Repo.ResetPassword cred' db,
          events := [RepoEvent.findCredsByEmail email,
                     RepoEvent.findUser credentials.userId,
                     RepoEvent.beginTxSerializable,
                     RepoEvent.resetPasswordCall credentials.userId,
                     RepoEvent.commit],
          emails := [{ subject := EmailSubject.resetPasswordMail,
                       recipientEmail := credentials.email,
                       recipientName := userName,
                       token := token }] }

/-- Decoded body of a RecoverPassword request
(`model.RecoverPasswordRequest`). -/
structure RecoverPasswordRequest where
  token : String
  password : String
  confirmPassword : String
deriving DecidableEq, Repr

/-- `RecoverPassword` handler (reset/recover handlers file, lines 252-339),
embedded over the store, the decode outcome and the fresh random salt
(`utils.GetRandomString(saltLength)`).  Mirrors the source branch for branch:
the Go length checks `len(req.Token) < 2`, `len(req.Password) < 6` and
`len(req.ConfirmPassword) < 6` are BYTE lengths of the UTF-8 encoding
(Go `len` on a string counts bytes), embedded as `String.utf8ByteSize`;
then password mismatch, `FindUserCredentials` by token
(`pgx.ErrNoRows` branch), then — with a live Serializable transaction —
`ConfirmCredentialsToken` (with only `UserId` set, so the token type argument
is the Go zero value) followed by `UpdatePassword` with the new hash and salt,
and commit.  Note the source reads no clock here: there is no
`token_expire` check on this path. -/
def RecoverPassword (db : List UserCredentials)
    (decoded : Option RecoverPasswordRequest) (randSalt : String) :
    HandlerOutput :=
  match decoded with
  | none =>
    { responses := [Response.err 400 ErrCode.authDecode "decode error"],
      db := db, events := [], emails := [] }
  | some req =>
    if req.token.utf8ByteSize < 2 ∨ req.token = " " then
      { responses := [Response.err 400 ErrCode.tokenCode "empty token"],
        db := db, events := [], emails := [] }
    else
      let noPassword := req.password.utf8ByteSize < 6
      let noConfirm := req.confirmPassword.utf8ByteSize < 6
      if noPassword ∧ noConfirm then
        { responses := [Response.err 400 ErrCode.authFormPasswordInvalid
            "empty body password"],
          db := db, events := [], emails := [] }
      else if noConfirm then
        { responses := [Response.err 400 ErrCode.auth
            "empty body confirm_password"],
          db := db, events := [], emails := [] }
      else if req.password ≠ req.confirmPassword then
        { responses := [Response.err 400 ErrCode.authFormPasswordsMismatch
            "password are not equal"],
          db := db, events := [], emails := [] }
      else
        match Repo.FindUserCredentialsByToken db req.token with
        | none =>
          { responses := [Response.err 404 ErrCode.lit404 "no rows in result set"],
            db := db, events := [RepoEvent.findCredsByToken req.token],
            emails := [] }
        | some credentials =>
          let password := GenerateSaltedHash req.password randSalt
          let cred' := { credentials with password := password, salt := randSalt }
          let db1 := Repo.ConfirmCredentialsToken credentials.userId
            TokenType.noTok db
          let db2 := Repo.UpdatePassword cred' db1
          { responses := [Response.ok none],
            db := db2,
            events := [RepoEvent.findCredsByToken req.token,
                       RepoEvent.beginTxSerializable,
                       RepoEvent.confirmCredentialsToken true credentials.userId,
                       RepoEvent.updatePassword true credentials.userId,
                       RepoEvent.commit],
            emails := [] }

/-- What a run of `HandleEmailEvent` does to the process: the e-mail was sent
(with the given body), or `log.Fatal(err)` ran, exiting the whole process. -/
inductive EmailOutcome
  | sent (body : String)
  | processFatalExit
deriving DecidableEq, Repr

/-- Body of the registration confirmation e-mail
(`getVerificationMessage`, src/services/mq_utils.go lines 35-47). -/
def getVerificationMessage (data : EmailData) (host port : String) : String :=
  "Hello, here is your verification link: " ++ host ++ ":" ++ port ++
    "/register/confirm?token=" ++ data.token

/-- Body of the password recovery e-mail
(`getPasswordRecoveryMessage`, src/services/mq_utils.go lines 49-61). -/
def getPasswordRecoveryMessage (data : EmailData) (host port : String) : String :=
  "Hello, here you can change your password: " ++ host ++ ":" ++ port ++
    "/password/recover?token=" ++ data.token

/-- `HandleEmailEvent` (src/services/mq_utils.go lines 13-33), embedded over
the outcome of `d.DialAndSend(m)`.  The source builds the message by subject,
then on a send error prints a line and calls `log.Fatal(err)` — which exits
the process (`os.Exit(1)`); there is no other error handling. -/
def HandleEmailEvent (data : EmailData) (host port : String)
    (dialAndSendFails : Bool) : EmailOutcome :=
  if dialAndSendFails then
    EmailOutcome.processFatalExit
  else
    match data.subject with
    | EmailSubject.registration =>
      EmailOutcome.sent (getVerificationMessage data host port)
    | EmailSubject.resetPasswordMail =>
      EmailOutcome.sent (getPasswordRecoveryMessage data host port)

/-! Sample inputs used by the concrete witnesses and counterexamples. -/

/-- A pending-registration credential whose confirmation token expires at
epoch second 1000. -/
def sampleCred : UserCredentials :=
  { userId := 1, email := "a@x.com", password := GenerateSaltedHash "pw123456" "s1",
    salt := "s1", token := "tok-abc", tokenType := TokenType.confirmation,
    tokenExpire := 1000, active := false }

/-- A store with one active credential for `a@x.com` whose password is
`pw123456`. -/
def loginDb : List UserCredentials :=
  [{ userId := 1, email := "a@x.com", password := GenerateSaltedHash "pw123456" "s1",
     salt := "s1", token := "", tokenType := TokenType.noTok,
     tokenExpire := 0, active := true }]

/-- A store with one credential holding a reset token that expired at epoch
second 1000 (e.g. issued with a 48h TTL and the clock then advanced 49h). -/
def recoverDb : List UserCredentials :=
  [{ userId := 1, email := "a@x.com", password := GenerateSaltedHash "oldpw123" "oldsalt",
     salt := "oldsalt", token := "reset-tok", tokenType := TokenType.resetPassword,
     tokenExpire := 1000, active := true }]

/-- Helper for C1: after `ConfirmCredentialsToken` clears the token of the
credential owning `t`, no credential in the store matches `t` any more
(provided `t` is nonempty and only that owner held `t`). -/
theorem find_after_consume (db : List UserCredentials) (uid : Nat) (tt : TokenType)
    (t : String) (ht : t ≠ "")
    (huniq : ∀ c' ∈ db, c'.token = t → c'.userId = uid) :
    Repo.FindUserCredentialsByToken (Repo.ConfirmCredentialsToken uid tt db) t = none := by
  unfold Repo.FindUserCredentialsByToken Repo.ConfirmCredentialsToken
  rw [List.find?_eq_none]
  intro x hx
  rw [List.mem_map] at hx
  obtain ⟨c', hc', rfl⟩ := hx
  by_cases h : c'.userId = uid
  · simp only [h, if_pos]
    simp only [beq_iff_eq]
    exact fun heq => ht heq.symm
  · simp only [h, if_neg, ite_false]
    simp only [beq_iff_eq]
    intro heq
    exact h (huniq c' hc' heq)

/-- C1: token single-use.  For every token `t`, after one successful
consumption of `t` by `ConfirmCredentialsToken` (via `ConfirmRegistration`),
the credential's token field is cleared, so a second `ConfirmRegistration`
call with the same `t` finds no matching credential (`pgx.ErrNoRows`) and
answers with the credentials-not-found error response. -/
theorem C1_token_single_use (now now2 : Int) (db : List UserCredentials)
    (t : String) (c : UserCredentials)
    (ht : t ≠ "")
    (hfind : Repo.FindUserCredentialsByToken db t = some c)
    (hvalid : now < c.tokenExpire)
    (huniq : ∀ c' ∈ db, c'.token = t → c'.userId = c.userId) :
    (ConfirmRegistration now db t).responses = [Response.ok none] ∧
    Repo.FindUserCredentialsByToken (ConfirmRegistration now db t).db t = none ∧
    (ConfirmRegistration now2 (ConfirmRegistration now db t).db t).responses =
      [Response.err 400 ErrCode.userCredentialsToken "no rows in result set"] := by
  have hnotexp : ¬ now ≥ c.tokenExpire := not_le.mpr hvalid
  have hrun : ConfirmRegistration now db t =
      { responses := [Response.ok none],
        db := Repo.ConfirmCredentialsToken c.userId c.tokenType db,
        events := [RepoEvent.findCredsByToken t,
                   RepoEvent.confirmCredentialsToken false c.userId],
        emails := [] } := by
    unfold ConfirmRegistration
    rw [if_neg ht, hfind]
    dsimp only
    rw [if_neg hnotexp]
  have hnone := find_after_consume db c.userId c.tokenType t ht huniq
  refine ⟨by rw [hrun], ?_, ?_⟩
  · rw [hrun]; exact hnone
  · rw [hrun]
    unfold ConfirmRegistration
    rw [if_neg ht]
    dsimp only
    rw [hnone]

/-- C1 witness: the single-use property at a concrete store holding one
pending credential with token `tok-abc` valid until epoch second 1000. -/
theorem C1_token_single_use_witness :
    (ConfirmRegistration 999 [sampleCred] "tok-abc").responses = [Response.ok none] ∧
    Repo.FindUserCredentialsByToken
      (ConfirmRegistration 999 [sampleCred] "tok-abc").db "tok-abc" = none ∧
    (ConfirmRegistration 998 (ConfirmRegistration 999 [sampleCred] "tok-abc").db
        "tok-abc").responses =
      [Response.err 400 ErrCode.userCredentialsToken "no rows in result set"] :=
  C1_token_single_use 999 998 [sampleCred] "tok-abc" sampleCred (by decide)
    (by decide) (by decide) (by decide)

/-- C2 counterexample: a token with `token_expire` equal to the clock value
read by the handler (`now = 1000`, `token_expire = 1000`) is NOT accepted —
the source rejects on `time.Now().Unix() >= creds.TokenExpire`, so the
boundary instant draws the Expired error, refuting the claim that
`token_expire = now` is accepted. -/
theorem C2_boundary_counterexample :
    (ConfirmRegistration 1000 [sampleCred] "tok-abc").responses =
      [Response.err 400 ErrCode.tokenExpired "token expired, try to reset password"] ∧
    (ConfirmRegistration 1000 [sampleCred] "tok-abc").responses ≠
      [Response.ok none] := by
  decide

/-- C2 (amended): the expiry check is `now >= token_expire`, so a token with
`token_expire <= now` (including the boundary `token_expire = now`, and
`token_expire = now - 1`) is rejected with the Expired error, and a token
with `token_expire > now` is accepted. -/
theorem C2_expiry_boundary (now : Int) (db : List UserCredentials) (t : String)
    (c : UserCredentials) (ht : t ≠ "")
    (hfind : Repo.FindUserCredentialsByToken db t = some c) :
    (c.tokenExpire ≤ now →
      (ConfirmRegistration now db t).responses =
        [Response.err 400 ErrCode.tokenExpired "token expired, try to reset password"]) ∧
    (now < c.tokenExpire →
      (ConfirmRegistration now db t).responses = [Response.ok none]) := by
  constructor
  · intro hle
    unfold ConfirmRegistration
    rw [if_neg ht, hfind]
    dsimp only
    rw [if_pos (ge_iff_le.mpr hle)]
  · intro hlt
    unfold ConfirmRegistration
    rw [if_neg ht, hfind]
    dsimp only
    rw [if_neg (not_le.mpr hlt)]

/-- C2 witness: at the boundary (`now = token_expire = 1000`) the token is
rejected with the Expired error, and one second earlier it is accepted. -/
theorem C2_expiry_boundary_witness :
    (ConfirmRegistration 1000 [sampleCred] "tok-abc").responses =
      [Response.err 400 ErrCode.tokenExpired "token expired, try to reset password"] ∧
    (ConfirmRegistration 999 [sampleCred] "tok-abc").responses = [Response.ok none] :=
  ⟨(C2_expiry_boundary 1000 [sampleCred] "tok-abc" sampleCred (by decide)
      (by decide)).1 (by decide),
   (C2_expiry_boundary 999 [sampleCred] "tok-abc" sampleCred (by decide)
      (by decide)).2 (by decide)⟩

/-- The decoded body of an expired-token recovery attempt: the reset token
from `recoverDb` (expired at epoch second 1000) with two equal valid
passwords. -/
def expiredRecoverReq : RecoverPasswordRequest :=
  { token := "reset-tok", password := "newpw12", confirmPassword := "newpw12" }

/-- C3: the claim says an expired reset token draws the Expired error and
leaves `password_hash` and `salt` unchanged.  The source's `RecoverPassword`
never reads the clock and performs no `token_expire` check (the embedded
handler has no `now` parameter at all): with the token from `recoverDb`,
expired at epoch second 1000, the run succeeds and overwrites the stored
password hash and salt — for every current time. -/
theorem C3_expired_reset_token_accepted :
    (RecoverPassword recoverDb (some expiredRecoverReq) "newsalt").responses =
      [Response.ok none] ∧
    (RecoverPassword recoverDb (some expiredRecoverReq) "newsalt").db =
      [{ userId := 1, email := "a@x.com",
         password := GenerateSaltedHash "newpw12" "newsalt", salt := "newsalt",
         token := "", tokenType := TokenType.noTok, tokenExpire := 0,
         active := true }] := by
  decide

/-- The e-mail event scheduled by a successful registration of `a@x.com`. -/
def sampleEmail : EmailData :=
  { subject := EmailSubject.registration, recipientEmail := "a@x.com",
    recipientName := "Ann", token := "tok-abc" }

/-- A well-formed Register request body. -/
def registerOkReq : RegisterRequest :=
  { email := "a@x.com", password := "pw123456", name := "Ann", termsOk := true }

/-- C4: the claim says an outbound e-mail failure is logged only and never
fails the owning request or the process.  The request half holds (the
handler's success response is computed before the e-mail event is handed to
the detached goroutine and does not depend on its outcome), but
`HandleEmailEvent` calls `log.Fatal(err)` when `DialAndSend` fails, which
exits the whole process. -/
theorem C4_email_failure_is_fatal :
    (Register 100 [] false registerOkReq "t0" "ps" 7 1).responses =
      [Response.ok (some 1)] ∧
    HandleEmailEvent sampleEmail "localhost" "8080" true =
      EmailOutcome.processFatalExit := by
  decide

/-- A Login body for an email with no credential in `loginDb`. -/
def unknownEmailReq : AuthenticateRequest :=
  { email := "b@x.com", password := "pw123456", rememberMe := false }

/-- A Login body for the known active email of `loginDb` with a wrong
password. -/
def wrongPasswordReq : AuthenticateRequest :=
  { email := "a@x.com", password := "wrongpass", rememberMe := false }

/-- C5 counterexample: against `loginDb`, an unknown email and a known active
email with a wrong password produce different error responses (same HTTP
status 400, but different error codes and different messages), refuting the
claim that the two failure responses are identical. -/
theorem C5_login_failures_distinguishable :
    (Login loginDb (some unknownEmailReq) none).responses =
      [Response.err 400 ErrCode.userCredentialsNotExists
        "User with specified login credentials not exists"] ∧
    (Login loginDb (some wrongPasswordReq) none).responses =
      [Response.err 400 ErrCode.lit1 "Wrong password"] ∧
    (Login loginDb (some unknownEmailReq) none).responses ≠
      (Login loginDb (some wrongPasswordReq) none).responses := by
  decide

/-- C5 (amended): both Login failure paths answer with HTTP status 400, but
the bodies differ and the two runs are distinguishable from the response:
an unknown email draws the `UserCredentialsNotExists` code with message
"User with specified login credentials not exists", while a wrong password
for a known active credential draws error code `1` with message
"Wrong password". -/
theorem C5_login_failure_responses (db : List UserCredentials)
    (req : AuthenticateRequest) (jwt : Option JwtToken)
    (hemail : req.email ≠ "") (hpw : req.password ≠ "") :
    (Repo.FindUserCredentialsByEmail db (goToLower req.email) = none →
      (Login db (some req) jwt).responses =
        [Response.err 400 ErrCode.userCredentialsNotExists
          "User with specified login credentials not exists"]) ∧
    (∀ c, Repo.FindUserCredentialsByEmail db (goToLower req.email) = some c →
      c.active = true →
      GenerateSaltedHash req.password c.salt ≠ c.password →
      (Login db (some req) jwt).responses =
        [Response.err 400 ErrCode.lit1 "Wrong password"]) := by
  constructor
  · intro hnone
    unfold Login
    dsimp only
    rw [if_neg hemail, if_neg hpw, hnone]
  · intro c hc hact hne
    unfold Login
    dsimp only
    rw [if_neg hemail, if_neg hpw, hc]
    dsimp only
    have hcond : ¬((!c.active) = true) := by simp [hact]
    rw [if_neg hcond, if_pos hne]

/-- C5 witness: the amended statement at `loginDb` for the two concrete
failing requests. -/
theorem C5_login_failure_responses_witness :
    (Login loginDb (some unknownEmailReq) none).responses =
      [Response.err 400 ErrCode.userCredentialsNotExists
        "User with specified login credentials not exists"] ∧
    (Login loginDb (some wrongPasswordReq) none).responses =
      [Response.err 400 ErrCode.lit1 "Wrong password"] :=
  ⟨(C5_login_failure_responses loginDb unknownEmailReq none (by decide)
      (by decide)).1 (by decide),
   (C5_login_failure_responses loginDb wrongPasswordReq none (by decide)
      (by decide)).2
     { userId := 1, email := "a@x.com",
       password := GenerateSaltedHash "pw123456" "s1", salt := "s1",
       token := "", tokenType := TokenType.noTok, tokenExpire := 0,
       active := true }
     (by decide) (by decide) (by decide)⟩

/-- C6 counterexample: at a concrete valid unexpired token, a successful
`ConfirmRegistration` run makes exactly two repository calls — the lookup and
one `ConfirmCredentialsToken` call whose transaction-handle flag is `false`
(the source passes `nil`) — and never opens a transaction, refuting the claim
that the consume call receives a live Serializable transaction handle. -/
theorem C6_consume_called_with_nil_tx :
    (ConfirmRegistration 999 [sampleCred] "tok-abc").events =
      [RepoEvent.findCredsByToken "tok-abc",
       RepoEvent.confirmCredentialsToken false 1] ∧
    RepoEvent.beginTxSerializable ∉ (ConfirmRegistration 999 [sampleCred] "tok-abc").events := by
  decide

/-- C6 (amended): for every valid, unexpired confirmation token,
`ConfirmRegistration` performs the token consumption and the `active=true`
flip through a single `ConfirmCredentialsToken` store call that receives a
`nil` transaction handle; the handler opens no explicit Serializable
transaction, so joint atomicity of the two effects rests on that one store
call being its own atomic unit. -/
theorem C6_confirm_effects_no_explicit_tx (now : Int) (db : List UserCredentials)
    (t : String) (c : UserCredentials) (ht : t ≠ "")
    (hfind : Repo.FindUserCredentialsByToken db t = some c)
    (hvalid : now < c.tokenExpire) :
    (ConfirmRegistration now db t).events =
      [RepoEvent.findCredsByToken t,
       RepoEvent.confirmCredentialsToken false c.userId] ∧
    RepoEvent.beginTxSerializable ∉ (ConfirmRegistration now db t).events ∧
    (ConfirmRegistration now db t).db =
      Repo.ConfirmCredentialsToken c.userId c.tokenType db := by
  have hrun : ConfirmRegistration now db t =
      { responses := [Response.ok none],
        db := Repo.ConfirmCredentialsToken c.userId c.tokenType db,
        events := [RepoEvent.findCredsByToken t,
                   RepoEvent.confirmCredentialsToken false c.userId],
        emails := [] } := by
    unfold ConfirmRegistration
    rw [if_neg ht, hfind]
    dsimp only
    rw [if_neg (not_le.mpr hvalid)]
  rw [hrun]
  refine ⟨rfl, ?_, rfl⟩
  intro hmem
  simp only [List.mem_cons, List.not_mem_nil] at hmem
  rcases hmem with h | h | h
  · exact RepoEvent.noConfusion h
  · exact RepoEvent.noConfusion h
  · exact h

/-- C6 witness: the amended statement at the concrete pending credential of
`sampleCred` one second before expiry. -/
theorem C6_confirm_effects_no_explicit_tx_witness :
    (ConfirmRegistration 999 [sampleCred] "tok-abc").events =
      [RepoEvent.findCredsByToken "tok-abc",
       RepoEvent.confirmCredentialsToken false 1] ∧
    RepoEvent.beginTxSerializable ∉
      (ConfirmRegistration 999 [sampleCred] "tok-abc").events ∧
    (ConfirmRegistration 999 [sampleCred] "tok-abc").db =
      Repo.ConfirmCredentialsToken 1 TokenType.confirmation [sampleCred] :=
  C6_confirm_effects_no_explicit_tx 999 [sampleCred] "tok-abc" sampleCred
    (by decide) (by decide) (by decide)

/-- The decoded body of a recovery attempt whose equal passwords are 4
CHARACTERS long but 8 BYTES long in UTF-8. -/
def unicodeRecoverReq : RecoverPasswordRequest :=
  { token := "reset-tok", password := "éééé", confirmPassword := "éééé" }

/-- C7 counterexample: the claim quantifies over passwords "shorter than 6
characters", but the source checks Go `len`, the BYTE length of the UTF-8
encoding.  With password = confirmPassword = "éééé" (4 characters, 8 bytes)
and the valid token of `recoverDb`, validation passes: the handler performs
the store lookup and overwrites the credential's password hash and salt,
answering success — no ValidationError, credential changed — refuting the
claim at a password that IS shorter than 6 characters. -/
theorem C7_short_unicode_password_accepted :
    ("éééé" : String).length < 6 ∧
    (RecoverPassword recoverDb (some unicodeRecoverReq) "ns").responses =
      [Response.ok none] ∧
    RepoEvent.findCredsByToken "reset-tok" ∈
      (RecoverPassword recoverDb (some unicodeRecoverReq) "ns").events ∧
    (RecoverPassword recoverDb (some unicodeRecoverReq) "ns").db ≠ recoverDb := by
  decide

/-- C7 (amended): for every RecoverPassword request whose two password fields
differ or either of which is shorter than 6 BYTES in its UTF-8 encoding (the
source's Go `len` checks count bytes, not characters), the handler answers
with a single 400-class validation error before any store lookup or write:
the store is unchanged and the repository-call trace is empty. -/
theorem C7_recover_validation_rejects (db : List UserCredentials)
    (req : RecoverPasswordRequest) (randSalt : String)
    (h : req.password ≠ req.confirmPassword ∨ req.password.utf8ByteSize < 6 ∨
      req.confirmPassword.utf8ByteSize < 6) :
    (RecoverPassword db (some req) randSalt).db = db ∧
    (RecoverPassword db (some req) randSalt).events = [] ∧
    ∃ code msg, (RecoverPassword db (some req) randSalt).responses =
      [Response.err 400 code msg] := by
  unfold RecoverPassword
  dsimp only
  split_ifs with h1 h2 h3 h4
  · exact ⟨rfl, rfl, ErrCode.tokenCode, "empty token", rfl⟩
  · exact ⟨rfl, rfl, ErrCode.authFormPasswordInvalid, "empty body password", rfl⟩
  · exact ⟨rfl, rfl, ErrCode.auth, "empty body confirm_password", rfl⟩
  · exact ⟨rfl, rfl, ErrCode.authFormPasswordsMismatch, "password are not equal", rfl⟩
  · exfalso
    have hpc : req.password = req.confirmPassword := not_not.mp h4
    rcases h with hne | hp | hcp
    · exact hne hpc
    · exact h3 (hpc ▸ hp)
    · exact h3 hcp

/-- C7 witness: the mismatched-confirm scenario
RecoverPassword(token, "abcdef", "abcdeg") at the `recoverDb` store. -/
theorem C7_recover_validation_rejects_witness :
    (RecoverPassword recoverDb
      (some { token := "reset-tok", password := "abcdef", confirmPassword := "abcdeg" })
      "ns").db = recoverDb ∧
    (RecoverPassword recoverDb
      (some { token := "reset-tok", password := "abcdef", confirmPassword := "abcdeg" })
      "ns").events = [] ∧
    ∃ code msg, (RecoverPassword recoverDb
      (some { token := "reset-tok", password := "abcdef", confirmPassword := "abcdeg" })
      "ns").responses = [Response.err 400 code msg] :=
  C7_recover_validation_rejects recoverDb
    { token := "reset-tok", password := "abcdef", confirmPassword := "abcdeg" }
    "ns" (Or.inl (by decide))

/-- C8: a successful ResetPassword run issues
`token = GenerateHashFromString(email + ":" + time + ":" + randomSalt)`,
`token_expire = now + 60*60*48` and `token_type = reset-password`, and these
fields overwrite the credential's previous token in place: the store after
the run is the old store with that one row replaced (same length — overwrite,
not append). -/
theorem C8_reset_token_issuance (now : Int) (timeStr : String)
    (db : List UserCredentials) (req : ResetPasswordRequest) (randSalt : Int)
    (userName : String) (c : UserCredentials)
    (hemail : ¬(req.email.length < 1 ∨ req.email = " "))
    (hfind : Repo.FindUserCredentialsByEmail db (goToLower req.email) = some c) :
    (ResetPassword now timeStr db (some req) randSalt userName).responses =
      [Response.ok none] ∧
    (ResetPassword now timeStr db (some req) randSalt userName).db =
      db.map (fun x => if x.userId = c.userId then
        { c with tokenType := TokenType.resetPassword,
                 token := GenerateHashFromString (goToLower req.email ++ ":" ++
                   timeStr ++ ":" ++ toString randSalt),
                 tokenExpire := now + 60 * 60 * 48 }
        else x) ∧
    (ResetPassword now timeStr db (some req) randSalt userName).db.length =
      db.length := by
  have hrun : ResetPassword now timeStr db (some req) randSalt userName =
      { responses := [Response.ok none],
        db := Repo.ResetPassword
          { c with tokenType := TokenType.resetPassword,
                   token := GenerateHashFromString (goToLower req.email ++ ":" ++
                     timeStr ++ ":" ++ toString randSalt),
                   tokenExpire := now + 60 * 60 * 48 } db,
        events := [RepoEvent.findCredsByEmail (goToLower req.email),
                   RepoEvent.findUser c.userId,
                   RepoEvent.beginTxSerializable,
                   RepoEvent.resetPasswordCall c.userId,
                   RepoEvent.commit],
        emails := [{ subject := EmailSubject.resetPasswordMail,
                     recipientEmail := c.email,
                     recipientName := userName,
                     token := GenerateHashFromString (goToLower req.email ++ ":" ++
                       timeStr ++ ":" ++ toString randSalt) }] } := by
    unfold ResetPassword
    dsimp only
    rw [if_neg hemail, hfind]
  rw [hrun]
  refine ⟨rfl, ?_, ?_⟩
  · unfold Repo.ResetPassword
    rfl
  · unfold Repo.ResetPassword
    simp [List.length_map]

/-- C8 witness: the issuance statement at the concrete active credential of
`loginDb`, clock 5000, time string "T", random salt 42. -/
theorem C8_reset_token_issuance_witness :
    (ResetPassword 5000 "T" loginDb (some { email := "a@x.com" }) 42 "Ann").responses =
      [Response.ok none] ∧
    (ResetPassword 5000 "T" loginDb (some { email := "a@x.com" }) 42 "Ann").db =
      loginDb.map (fun x => if x.userId = 1 then
        { userId := 1, email := "a@x.com",
          password := GenerateSaltedHash "pw123456" "s1", salt := "s1",
          token := GenerateHashFromString ("a@x.com" ++ ":" ++ "T" ++ ":" ++
            toString (42 : Int)),
          tokenType := TokenType.resetPassword, tokenExpire := 5000 + 60 * 60 * 48,
          active := true }
        else x) ∧
    (ResetPassword 5000 "T" loginDb (some { email := "a@x.com" }) 42 "Ann").db.length =
      loginDb.length := by
  have h := C8_reset_token_issuance 5000 "T" loginDb { email := "a@x.com" } 42 "Ann"
    { userId := 1, email := "a@x.com", password := GenerateSaltedHash "pw123456" "s1",
      salt := "s1", token := "", tokenType := TokenType.noTok, tokenExpire := 0,
      active := true }
    (by decide) (by decide)
  exact ⟨h.1, by rw [h.2.1]; decide, h.2.2⟩

/-- The Login body of the C9 failing input: the known active credential of
`loginDb` with its correct password. -/
def c9Req : AuthenticateRequest :=
  { email := "a@x.com", password := "pw123456", rememberMe := false }

/-- C9: the claim says every Controller operation returns a typed result or a
typed error on every path.  Login's JWT-failure path (source lines 181-185)
logs the error and returns without writing ANY response: with valid active
credentials, the correct password and a failed `createJWTToken`, the run
reaches past the password check (the lookup event is in the trace) yet the
list of written responses is empty. -/
theorem C9_login_jwt_failure_no_response :
    (Login loginDb (some c9Req) none).responses = [] ∧
    (Login loginDb (some c9Req) none).events =
      [RepoEvent.findCredsByEmail "a@x.com"] := by
  decide

/-- A failing-decode Register body that nevertheless decoded
`terms_ok = true` before the decode error (Go `encoding/json` fills fields it
decoded before returning an `UnmarshalTypeError` for a later field). -/
def c10PartialReq : RegisterRequest :=
  { email := "e@x.com", password := "pw123456", name := "Eve", termsOk := true }

/-- C10 counterexample: the claim says every Register request whose JSON body
fails to decode returns before opening a transaction because the zero-valued
request has `TermsOk = false`.  But `json.Decode` can fail while having
already set `terms_ok = true` (a type error on a later field fills the
earlier fields); since the decode-error branch lacks a `return`, such a run
passes the terms check, opens the Serializable transaction and creates the
User and Credential. -/
theorem C10_partial_decode_reaches_tx :
    (Register 100 [] true c10PartialReq "t0" "ps" 7 1).responses.head? =
      some (Response.err 400 ErrCode.authDecode "decode error") ∧
    (Register 100 [] true c10PartialReq "t0" "ps" 7 1).events =
      [RepoEvent.beginTxSerializable, RepoEvent.txCreateUser,
       RepoEvent.txNewAuthCredentials, RepoEvent.commit] ∧
    (Register 100 [] true c10PartialReq "t0" "ps" 7 1).db ≠ [] := by
  decide

/-- C10 (amended): for every Register request whose JSON body fails to decode
leaving `TermsOk = false` in the decoded struct (in particular the zero value
left by an empty or syntactically invalid body), the handler writes the
decode error and — because the decode-error branch lacks a `return` — a
second terms error, but returns before `BeginTx`: the trace is empty and no
User or Credential is created.  A failing body that decoded `terms_ok = true`
instead proceeds to the transaction (see the counterexample). -/
theorem C10_decode_error_without_terms_no_tx (now : Int)
    (db : List UserCredentials) (req : RegisterRequest)
    (timeStr passwordSalt : String) (tokenSalt : Int) (newUid : Nat)
    (hterms : req.termsOk = false) :
    (Register now db true req timeStr passwordSalt tokenSalt newUid).responses =
      [Response.err 400 ErrCode.authDecode "decode error",
       Response.err 400 ErrCode.authForm
         "you must accept terms and conditions terms_ok set to true"] ∧
    (Register now db true req timeStr passwordSalt tokenSalt newUid).events = [] ∧
    (Register now db true req timeStr passwordSalt tokenSalt newUid).db = db ∧
    (Register now db true req timeStr passwordSalt tokenSalt newUid).emails = [] := by
  unfold Register
  rw [hterms]
  exact ⟨rfl, rfl, rfl, rfl⟩

/-- C10 witness: the amended statement at the zero-valued request (what an
empty request body leaves after the failed decode). -/
theorem C10_decode_error_without_terms_no_tx_witness :
    (Register 100 [] true zeroRegisterRequest "t0" "ps" 7 1).responses =
      [Response.err 400 ErrCode.authDecode "decode error",
       Response.err 400 ErrCode.authForm
         "you must accept terms and conditions terms_ok set to true"] ∧
    (Register 100 [] true zeroRegisterRequest "t0" "ps" 7 1).events = [] ∧
    (Register 100 [] true zeroRegisterRequest "t0" "ps" 7 1).db = [] ∧
    (Register 100 [] true zeroRegisterRequest "t0" "ps" 7 1).emails = [] :=
  C10_decode_error_without_terms_no_tx 100 [] zeroRegisterRequest "t0" "ps" 7 1
    (by decide)
